import Mathlib

/-!
Verification of the azure-swa-demo backend (src/backend/application.py and
src/backend/main.py) against its specification.

The relational store is modelled as a list of user records.  External
failures (connection errors, cold starts, commit-time exceptions) are
modelled by an oracle `Nat → Bool` giving, for each retry attempt index,
whether that attempt raises an exception; a raised exception rolls the
transaction back, leaving the store unchanged.  Sleeps are recorded as a
list of durations in seconds, log warnings as a counter.
-/

/-- A row of the `users` table (application.py lines 44-49 / main.py 19-24):
integer primary key `id`, `name`, and `email` (declared unique). -/
structure User where
  id : Int
  name : String
  email : String
deriving Repr, DecidableEq

/-- The store state: the rows of the single `users` table. -/
abbrev Store := List User

/-- Auto-increment id assignment: next id is one past the maximum present. -/
def nextId (s : Store) : Int :=
  (s.map User.id).foldr max 0 + 1

/-- Rows to insert, as (name, email) pairs, before the store assigns ids. -/
abbrev Rows := List (String × String)

/-- Assign consecutive auto-increment ids to a batch of new rows. -/
def assignIds (start : Int) : Rows → List User
  | [] => []
  | (n, e) :: rest => ⟨start, n, e⟩ :: assignIds (start + 1) rest

/-- Batch insert honouring the UNIQUE constraint on `email`
(application.py line 49): the commit succeeds only when the emails of the
existing rows together with the new rows are pairwise distinct, otherwise
the store raises an integrity error and nothing is persisted. -/
def insertBatch (s : Store) (rows : Rows) : Except String Store :=
  let s' := s ++ assignIds (nextId s) rows
  if (s'.map User.email).Nodup then .ok s'
  else .error "UNIQUE constraint failed: users.email"

/-- The 5 baseline seed rows (application.py lines 60-66 / main.py 32-38). -/
def baselineSeed : Rows :=
  [("Alice Johnson", "alice@example.com"),
   ("Bob Smith", "bob@example.com"),
   ("Charlie Brown", "charlie@example.com"),
   ("Diana Prince", "diana@example.com"),
   ("Eve Wilson", "eve@example.com")]

/-- The store produced by seeding an empty store. -/
def seededUsers : Store :=
  [⟨1, "Alice Johnson", "alice@example.com"⟩,
   ⟨2, "Bob Smith", "bob@example.com"⟩,
   ⟨3, "Charlie Brown", "charlie@example.com"⟩,
   ⟨4, "Diana Prince", "diana@example.com"⟩,
   ⟨5, "Eve Wilson", "eve@example.com"⟩]

/-- One count-then-insert attempt (application.py lines 59-71 / main.py
31-41): if the table is empty, insert the 5 baseline rows in one batch and
commit; otherwise skip.  Returns the new store and whether a batch was
committed; an `.error` models an exception raised by the store. -/
def seedAttempt (s : Store) : Except String (Store × Bool) :=
  if s.length = 0 then
    match insertBatch s baselineSeed with
    | .ok s' => .ok (s', true)
    | .error e => .error e
  else
    .ok (s, false)

/-- Outcome of one `seed_database` call. -/
structure SeedResult where
  store : Store
  sleeps : List Nat
  warnings : Nat
  attemptsUsed : Nat
  committed : Bool
deriving Repr, DecidableEq

/-- `max_retries = 3` (application.py lines 55, 87). -/
def max_retries : Nat := 3

namespace App

/-- The retry loop of `seed_database` (application.py lines 56-82) over the
remaining attempt indices.  `oracle a = true` means attempt `a` raises an
external exception (connection issue / race), which is rolled back, logged
as a warning, and followed by a `2 ^ a` second sleep unless `a` was the
last attempt. -/
def seedGo (oracle : Nat → Bool) : List Nat → Store → SeedResult
  | [], s => ⟨s, [], 0, 0, false⟩
  | a :: rest, s =>
    if oracle a then
      let sleeps := if a < max_retries - 1 then [2 ^ a] else []
      let r := seedGo oracle rest s
      ⟨r.store, sleeps ++ r.sleeps, r.warnings + 1, r.attemptsUsed + 1, r.committed⟩
    else
      match seedAttempt s with
      | .ok (s', c) => ⟨s', [], 0, 1, c⟩
      | .error _ =>
        let sleeps := if a < max_retries - 1 then [2 ^ a] else []
        let r := seedGo oracle rest s
        ⟨r.store, sleeps ++ r.sleeps, r.warnings + 1, r.attemptsUsed + 1, r.committed⟩

/-- `seed_database` (application.py lines 53-82): up to `max_retries`
count-then-insert attempts with rollback, warning log and exponential
backoff on exception. -/
def seed_database (oracle : Nat → Bool) (s : Store) : SeedResult :=
  seedGo oracle (List.range max_retries) s

end App

namespace Main

/-- `seed_database` (main.py lines 28-47): a single count-then-insert
attempt; any exception is rolled back and swallowed, leaving the store
unchanged.  `fail = true` models an external exception during the attempt. -/
def seed_database (fail : Bool) (s : Store) : Store :=
  if fail then s
  else
    match seedAttempt s with
    | .ok (s', _) => s'
    | .error _ => s

end Main

/-- Outcome of one `init_database` call: the returned boolean, the backoff
sleeps performed, and how many attempts ran. -/
structure InitResult where
  ok : Bool
  sleeps : List Nat
  attemptsUsed : Nat
deriving Repr, DecidableEq

namespace App

/-- The retry loop of `init_database` (application.py lines 88-98):
`oracle a = true` means `create_all` raises on attempt `a`; a failure that
is not on the last attempt is followed by a `2 ^ a` second sleep. -/
def initGo (oracle : Nat → Bool) : List Nat → InitResult
  | [] => ⟨false, [], 0⟩
  | a :: rest =>
    if oracle a then
      let sleeps := if a < max_retries - 1 then [2 ^ a] else []
      let r := initGo oracle rest
      ⟨r.ok, sleeps ++ r.sleeps, r.attemptsUsed + 1⟩
    else
      ⟨true, [], 1⟩

/-- `init_database` (application.py lines 85-100): up to `max_retries`
attempts to create the tables; returns `True` on the first success and
`False` (rather than raising) after exhausting all attempts. -/
def init_database (oracle : Nat → Bool) : InitResult :=
  initGo oracle (List.range max_retries)

end App

/-- Startup events of the Lifecycle Coordinator, in order of occurrence.
`ready` is the `yield` point: request handlers become reachable only once
`ready` has occurred. -/
inductive Event where
  | initRun
  | seedRun
  | ready
deriving Repr, DecidableEq

/-- Outcome of running the startup half of `lifespan`. -/
structure LifespanResult where
  events : List Event
  store : Store
  started : Bool
deriving Repr, DecidableEq

namespace App

/-- The startup half of `lifespan` (application.py lines 103-111): run
`init_database`; if it returns `True`, run `seed_database`, otherwise log
an error and skip seeding; in either case reach the `yield` (the process
starts and handlers become reachable). -/
def lifespan (initOracle seedOracle : Nat → Bool) (s : Store) : LifespanResult :=
  if (init_database initOracle).ok then
    ⟨[.initRun, .seedRun, .ready], (seed_database seedOracle s).store, true⟩
  else
    ⟨[.initRun, .ready], s, true⟩

end App

/-!  HTTP layer.  A JSON value, object body and response; FastAPI returns
HTTP 200 for every plain dict/list return value, so every handler below
produces status 200. -/

/-- A JSON scalar used in response bodies. -/
inductive JVal where
  | str (s : String)
  | int (i : Int)
deriving Repr, DecidableEq

/-- A JSON object as an ordered association list. -/
abbrev JObj := List (String × JVal)

/-- A response body: a JSON object or an array of objects. -/
inductive JBody where
  | obj (o : JObj)
  | arr (l : List JObj)
deriving Repr, DecidableEq

/-- An HTTP response: status code and body. -/
structure Response where
  status : Nat
  body : JBody
deriving Repr, DecidableEq

/-- The projection `{"id": u.id, "name": u.name, "email": u.email}`
(application.py lines 157, 165 / main.py lines 100, 108). -/
def userObj (u : User) : JObj :=
  [("id", .int u.id), ("name", .str u.name), ("email", .str u.email)]

/-- A request to one of the four read endpoints. -/
inductive Request where
  | root
  | health
  | users
  | user (user_id : Int)
deriving Repr, DecidableEq

namespace App

/-- `root` (application.py lines 144-146). -/
def root : Response :=
  ⟨200, .obj [("message", .str "Azure SWA Demo API"), ("status", .str "healthy")]⟩

/-- `health_check` (application.py lines 149-151): no store access. -/
def health_check : Response :=
  ⟨200, .obj [("status", .str "healthy")]⟩

/-- `get_users` (application.py lines 154-157): all rows, each projected
to `{id, name, email}`. -/
def get_users (db : Store) : Response :=
  ⟨200, .arr (db.map userObj)⟩

/-- `get_user` (application.py lines 160-165): first row whose `id` equals
`user_id`; `{"error": "User not found"}` when there is none. -/
def get_user (db : Store) (user_id : Int) : Response :=
  match db.find? (fun u => u.id == user_id) with
  | none => ⟨200, .obj [("error", .str "User not found")]⟩
  | some u => ⟨200, .obj (userObj u)⟩

/-- Dispatch of the four read endpoints against a store state. -/
def handle (db : Store) : Request → Response
  | .root => root
  | .health => health_check
  | .users => get_users db
  | .user uid => get_user db uid

end App

namespace Main

/-- `root` (main.py lines 87-89). -/
def root : Response :=
  ⟨200, .obj [("message", .str "Azure SWA Demo API"), ("status", .str "healthy")]⟩

/-- `health_check` (main.py lines 92-94): no store access. -/
def health_check : Response :=
  ⟨200, .obj [("status", .str "healthy")]⟩

/-- `get_users` (main.py lines 97-100). -/
def get_users (db : Store) : Response :=
  ⟨200, .arr (db.map userObj)⟩

/-- `get_user` (main.py lines 103-108). -/
def get_user (db : Store) (user_id : Int) : Response :=
  match db.find? (fun u => u.id == user_id) with
  | none => ⟨200, .obj [("error", .str "User not found")]⟩
  | some u => ⟨200, .obj (userObj u)⟩

/-- Dispatch of the four read endpoints of main.py. -/
def handle (db : Store) : Request → Response
  | .root => root
  | .health => health_check
  | .users => get_users db
  | .user uid => get_user db uid

end Main

/-- A sequence of sequential `App.seed_database` invocations, each with
its own failure oracle, starting from store `s`: returns the final store
and whether any invocation committed the baseline batch. -/
def seedRun : List (Nat → Bool) → Store → Store × Bool
  | [], s => (s, false)
  | o :: os, s =>
    let r := App.seed_database o s
    let rest := seedRun os r.store
    (rest.1, r.committed || rest.2)

/-- Store states reachable by the program's only write path: the empty
store (fresh table) followed by any sequence of `seed_database` runs. -/
inductive Reachable : Store → Prop
  | empty : Reachable []
  | seed (o : Nat → Bool) {s : Store} :
      Reachable s → Reachable (App.seed_database o s).store

/-- Sequential runs of main.py's `seed_database`, one `fail` flag per run. -/
def seedRunMain : List Bool → Store → Store
  | [], s => s
  | f :: fs, s => seedRunMain fs (Main.seed_database f s)

/-- The store left behind by one exception-free count-then-insert attempt:
the full baseline batch when the table was empty, otherwise unchanged. -/
def attemptStore (s : Store) : Store :=
  if s.length = 0 then seededUsers else s

theorem range_three : List.range 3 = [0, 1, 2] := by decide

theorem seedAttempt_nonempty {s : Store} (h : s ≠ []) :
    seedAttempt s = .ok (s, false) := by
  unfold seedAttempt
  simp [List.length_eq_zero, h]

theorem seedAttempt_empty : seedAttempt [] = .ok (seededUsers, true) := rfl

theorem seedAttempt_eq : ∀ s : Store, seedAttempt s = .ok (attemptStore s, s.isEmpty)
  | [] => seedAttempt_empty
  | h :: t => by
    rw [seedAttempt_nonempty (List.cons_ne_nil h t)]
    simp [attemptStore]

theorem attemptStore_cases (s : Store) :
    attemptStore s = s ∨ (s = [] ∧ attemptStore s = seededUsers) := by
  cases s with
  | nil => exact Or.inr ⟨rfl, rfl⟩
  | cons h t => exact Or.inl (by simp [attemptStore])

theorem seedGo_store (o : Nat → Bool) (l : List Nat) (s : Store) :
    ((App.seedGo o l s).store = s ∧ (App.seedGo o l s).committed = false) ∨
    (s = [] ∧ (App.seedGo o l s).store = seededUsers ∧
      (App.seedGo o l s).committed = true) := by
  induction l with
  | nil => exact Or.inl ⟨rfl, rfl⟩
  | cons a rest ih =>
    by_cases ho : o a
    · rcases ih with ⟨h1, h2⟩ | ⟨hs, h1, h2⟩
      · exact Or.inl ⟨by simp [App.seedGo, ho, h1], by simp [App.seedGo, ho, h2]⟩
      · exact Or.inr ⟨hs, by simp [App.seedGo, ho, h1], by simp [App.seedGo, ho, h2]⟩
    · by_cases hs : s = []
      · subst hs
        exact Or.inr ⟨rfl, by simp [App.seedGo, ho, seedAttempt_empty],
          by simp [App.seedGo, ho, seedAttempt_empty]⟩
      · exact Or.inl ⟨by simp [App.seedGo, ho, seedAttempt_nonempty hs],
          by simp [App.seedGo, ho, seedAttempt_nonempty hs]⟩

theorem seed_database_store (o : Nat → Bool) (s : Store) :
    ((App.seed_database o s).store = s ∧ (App.seed_database o s).committed = false) ∨
    (s = [] ∧ (App.seed_database o s).store = seededUsers ∧
      (App.seed_database o s).committed = true) :=
  seedGo_store o (List.range max_retries) s

theorem main_seed_store (f : Bool) (s : Store) :
    Main.seed_database f s = s ∨ (s = [] ∧ Main.seed_database f s = seededUsers) := by
  by_cases hf : f
  · exact Or.inl (by simp [Main.seed_database, hf])
  · by_cases hs : s = []
    · subst hs
      exact Or.inr ⟨rfl, by simp [Main.seed_database, hf, seedAttempt_empty]⟩
    · exact Or.inl (by simp [Main.seed_database, hf, seedAttempt_nonempty hs])

theorem seedRun_cons (o : Nat → Bool) (os : List (Nat → Bool)) (s : Store) :
    seedRun (o :: os) s =
      ((seedRun os (App.seed_database o s).store).1,
       (App.seed_database o s).committed ||
         (seedRun os (App.seed_database o s).store).2) := rfl

theorem seedRun_inv (os : List (Nat → Bool)) :
    ∀ s : Store, (s = [] ∨ s = seededUsers) →
      (((seedRun os s).1 = [] ∨ (seedRun os s).1 = seededUsers) ∧
       ((seedRun os s).2 = true → (seedRun os s).1 = seededUsers) ∧
       (s = seededUsers → (seedRun os s).1 = seededUsers)) := by
  induction os with
  | nil =>
    intro s hs
    exact ⟨hs, by simp [seedRun], fun h => h⟩
  | cons o os ih =>
    intro s hs
    rw [seedRun_cons]
    rcases seed_database_store o s with ⟨h1, h2⟩ | ⟨hse, h1, h2⟩
    · obtain ⟨g1, g2, g3⟩ := ih (App.seed_database o s).store (by rw [h1]; exact hs)
      refine ⟨g1, ?_, ?_⟩
      · intro hc
        rw [h2, Bool.false_or] at hc
        exact g2 hc
      · intro hss
        exact g3 (h1.trans hss)
    · obtain ⟨g1, g2, g3⟩ := ih (App.seed_database o s).store (Or.inr h1)
      exact ⟨g1, fun _ => g3 h1, fun _ => g3 h1⟩

theorem seedRunMain_inv (fs : List Bool) :
    ∀ s : Store, (s = [] ∨ s = seededUsers) →
      ((seedRunMain fs s = [] ∨ seedRunMain fs s = seededUsers) ∧
       (s = seededUsers → seedRunMain fs s = seededUsers)) := by
  induction fs with
  | nil => exact fun s hs => ⟨hs, fun h => h⟩
  | cons f fs ih =>
    intro s hs
    rcases main_seed_store f s with h1 | ⟨hse, h1⟩
    · obtain ⟨g1, g2⟩ := ih (Main.seed_database f s) (by rw [h1]; exact hs)
      exact ⟨g1, fun hss => g2 (h1.trans hss)⟩
    · obtain ⟨g1, g2⟩ := ih (Main.seed_database f s) (Or.inr h1)
      exact ⟨g1, fun _ => g2 h1⟩

/-- C1: Seed idempotence.  From an initially empty store, any number of
sequential `seed_database` invocations (each with an arbitrary external
failure oracle) leaves either 0 or 5 user records; as soon as any
invocation has committed the baseline batch the total is exactly 5, and
later invocations keep it at 5 (never 10, never back to 0).  The same
holds for main.py's variant (`seedRunMain`). -/
theorem seed_loader_idempotent (oracles : List (Nat → Bool)) (fails : List Bool) :
    ((seedRun oracles []).1.length = 0 ∨ (seedRun oracles []).1.length = 5) ∧
    ((seedRun oracles []).2 = true → (seedRun oracles []).1.length = 5) ∧
    (seedRun oracles seededUsers).1.length = 5 ∧
    ((seedRunMain fails []).length = 0 ∨ (seedRunMain fails []).length = 5) ∧
    (seedRunMain fails seededUsers).length = 5 := by
  obtain ⟨h1, h2, -⟩ := seedRun_inv oracles [] (Or.inl rfl)
  obtain ⟨-, -, h3⟩ := seedRun_inv oracles seededUsers (Or.inr rfl)
  obtain ⟨g1, -⟩ := seedRunMain_inv fails [] (Or.inl rfl)
  obtain ⟨-, g2⟩ := seedRunMain_inv fails seededUsers (Or.inr rfl)
  refine ⟨?_, ?_, ?_, ?_, ?_⟩
  · rcases h1 with h | h
    · exact Or.inl (by rw [h]; rfl)
    · exact Or.inr (by rw [h]; rfl)
  · intro hc
    rw [h2 hc]
    rfl
  · rw [h3 rfl]
    rfl
  · rcases g1 with h | h
    · exact Or.inl (by rw [h]; rfl)
    · exact Or.inr (by rw [h]; rfl)
  · rw [g2 rfl]
    rfl

theorem seed_loader_idempotent_witness :
    (seedRun [fun _ => false] []).1.length = 5 :=
  (seed_loader_idempotent [fun _ => false] []).2.1 (by decide)

/-- C5: Seed Loader error recovery.  A failed attempt rolls back (the
store is unchanged by it), logs one warning, and the full count-then-insert
sequence is retried up to 3 attempts total with backoff sleeps of 1s then
2s; no partial subset of the 5 baseline rows is ever committed — the store
is either unchanged or extended by the complete batch. -/
theorem seed_recovery (o : Nat → Bool) (s : Store) :
    ((App.seed_database o s).store = s ∨
      (s = [] ∧ (App.seed_database o s).store = seededUsers)) ∧
    (App.seed_database o s).attemptsUsed ≤ max_retries ∧
    (o 0 = false →
      App.seed_database o s = ⟨attemptStore s, [], 0, 1, s.isEmpty⟩) ∧
    (o 0 = true → o 1 = false →
      App.seed_database o s = ⟨attemptStore s, [1], 1, 2, s.isEmpty⟩) ∧
    (o 0 = true → o 1 = true → o 2 = false →
      App.seed_database o s = ⟨attemptStore s, [1, 2], 2, 3, s.isEmpty⟩) ∧
    (o 0 = true → o 1 = true → o 2 = true →
      App.seed_database o s = ⟨s, [1, 2], 3, 3, false⟩) := by
  have h0 := seedAttempt_eq s
  refine ⟨?_, ?_, ?_, ?_, ?_, ?_⟩
  · rcases seed_database_store o s with ⟨h1, -⟩ | ⟨hs, h1, -⟩
    · exact Or.inl h1
    · exact Or.inr ⟨hs, h1⟩
  · cases ho0 : o 0 <;> cases ho1 : o 1 <;> cases ho2 : o 2 <;>
      simp [App.seed_database, App.seedGo, max_retries, range_three, ho0, ho1, ho2, h0]
  · intro ha
    simp [App.seed_database, App.seedGo, max_retries, range_three, ha, h0]
  · intro ha hb
    simp [App.seed_database, App.seedGo, max_retries, range_three, ha, hb, h0]
  · intro ha hb hc
    simp [App.seed_database, App.seedGo, max_retries, range_three, ha, hb, hc, h0]
  · intro ha hb hc
    simp [App.seed_database, App.seedGo, max_retries, range_three, ha, hb, hc, h0]

theorem seed_recovery_witness :
    App.seed_database (fun _ => true) seededUsers = ⟨seededUsers, [1, 2], 3, 3, false⟩ :=
  (seed_recovery (fun _ => true) seededUsers).2.2.2.2.2 rfl rfl rfl

/-- C3: Schema Initializer retry policy.  `init_database` makes at most 3
attempts; it returns `True` on the first attempt that succeeds, sleeping
`2 ^ attempt` seconds (1s, then 2s) after each failed attempt that is not
the last; after 3 failures it returns `False` rather than raising. -/
theorem init_retry_policy (o : Nat → Bool) :
    App.init_database o =
      (if o 0 = false then ⟨true, [], 1⟩
       else if o 1 = false then ⟨true, [1], 2⟩
       else if o 2 = false then ⟨true, [1, 2], 3⟩
       else ⟨false, [1, 2], 3⟩) ∧
    (App.init_database o).attemptsUsed ≤ max_retries := by
  have h : App.init_database o =
      (if o 0 = false then (⟨true, [], 1⟩ : InitResult)
       else if o 1 = false then ⟨true, [1], 2⟩
       else if o 2 = false then ⟨true, [1, 2], 3⟩
       else ⟨false, [1, 2], 3⟩) := by
    cases ho0 : o 0 <;> cases ho1 : o 1 <;> cases ho2 : o 2 <;>
      simp [App.init_database, App.initGo, max_retries, range_three, ho0, ho1, ho2]
  refine ⟨h, ?_⟩
  rw [h]
  split_ifs <;> decide

/-- C4: Lifecycle sequencing.  Startup runs the Schema Initializer first
and the `ready` (yield) point — where handlers become reachable — comes
last; when `init_database` fails the Seed Loader is never invoked and the
store is untouched, yet the process still starts; when it succeeds the
Seed Loader runs and the process becomes ready regardless of the Seed
Loader's outcome. -/
theorem lifespan_sequencing (io so : Nat → Bool) (s : Store) :
    (App.lifespan io so s).started = true ∧
    (App.lifespan io so s).events.head? = some Event.initRun ∧
    (App.lifespan io so s).events.getLast? = some Event.ready ∧
    ((App.init_database io).ok = false →
      Event.seedRun ∉ (App.lifespan io so s).events ∧
      (App.lifespan io so s).store = s) ∧
    ((App.init_database io).ok = true →
      Event.seedRun ∈ (App.lifespan io so s).events ∧
      (App.lifespan io so s).store = (App.seed_database so s).store) ∧
    Event.ready ∈ (App.lifespan io so s).events := by
  cases h : (App.init_database io).ok <;>
    simp [App.lifespan, h, List.getLast?]

theorem lifespan_sequencing_witness :
    Event.seedRun ∉ (App.lifespan (fun _ => true) (fun _ => false) []).events ∧
    Event.seedRun ∈ (App.lifespan (fun _ => false) (fun _ => false) []).events := by
  constructor
  · exact ((lifespan_sequencing (fun _ => true) (fun _ => false) []).2.2.2.1 (by decide)).1
  · exact ((lifespan_sequencing (fun _ => false) (fun _ => false) []).2.2.2.2.1 (by decide)).1

theorem find_id_of_mem {db : Store} {uid : Int} {u : User}
    (hnd : (db.map User.id).Nodup) (hu : u ∈ db) (hid : u.id = uid) :
    db.find? (fun v => v.id == uid) = some u := by
  induction db with
  | nil => cases hu
  | cons h t ih =>
    rw [List.map_cons, List.nodup_cons] at hnd
    rcases List.mem_cons.mp hu with rfl | ht
    · exact List.find?_cons_of_pos _ (by simp [hid])
    · have hne : ¬ h.id = uid := by
        intro he
        exact hnd.1 (he ▸ hid ▸ List.mem_map_of_mem User.id ht)
      rw [List.find?_cons_of_neg _ (by simp [hne])]
      exact ih hnd.2 ht

/-- C2: `get_user` behaviour.  With pairwise-distinct ids, a `user_id`
matching a record returns that record's exact `{id, name, email}` body; a
`user_id` matching no record returns `{"error": "User not found"}`; both
outcomes carry the same success status code 200. -/
theorem get_user_spec (db : Store) (uid : Int) (hnd : (db.map User.id).Nodup) :
    (∀ u ∈ db, u.id = uid → App.get_user db uid = ⟨200, .obj (userObj u)⟩) ∧
    ((∀ u ∈ db, u.id ≠ uid) →
      App.get_user db uid = ⟨200, .obj [("error", JVal.str "User not found")]⟩) ∧
    (App.get_user db uid).status = 200 := by
  refine ⟨?_, ?_, ?_⟩
  · intro u hu hid
    unfold App.get_user
    rw [find_id_of_mem hnd hu hid]
  · intro hall
    unfold App.get_user
    rw [List.find?_eq_none.mpr (fun x hx => by simp [hall x hx])]
  · unfold App.get_user
    cases db.find? (fun u => u.id == uid) <;> rfl

theorem get_user_spec_witness :
    App.get_user seededUsers 1 =
      ⟨200, .obj [("id", JVal.int 1), ("name", JVal.str "Alice Johnson"),
                  ("email", JVal.str "alice@example.com")]⟩ ∧
    App.get_user seededUsers 999999 =
      ⟨200, .obj [("error", JVal.str "User not found")]⟩ := by
  constructor
  · exact (get_user_spec seededUsers 1 (by decide)).1
      ⟨1, "Alice Johnson", "alice@example.com"⟩ (by decide) rfl
  · exact (get_user_spec seededUsers 999999 (by decide)).2.1 (by decide)

/-- C6: Email uniqueness invariant.  Every store state reachable through
the program's only write path (a fresh empty table followed by any
sequence of `seed_database` runs) has pairwise-distinct emails. -/
theorem email_uniqueness_invariant (s : Store) (h : Reachable s) :
    (s.map User.email).Nodup := by
  induction h with
  | empty => simp
  | seed o hr ih =>
    rcases seed_database_store o _ with ⟨h1, -⟩ | ⟨-, h1, -⟩
    · rw [h1]; exact ih
    · rw [h1]; decide

theorem email_uniqueness_invariant_witness :
    (((App.seed_database (fun _ => false) []).store.map User.email)).Nodup :=
  email_uniqueness_invariant _ (Reachable.seed (fun _ => false) Reachable.empty)

/-- The store after one successful `seed_database` run on an empty store. -/
def freshStore : Store := (App.seed_database (fun _ => false) []).store

/-- The "email" field of each object of an array body. -/
def bodyEmails : JBody → List JVal
  | .obj _ => []
  | .arr l => l.map (fun o => (o.lookup "email").getD (JVal.str ""))

/-- C7: `get_users` returns every record in the store, each projected to
exactly the three fields id, name, email; on a freshly seeded store it
returns 5 entries whose emails are a permutation of ("in some order") the
5 baseline literals. -/
theorem get_users_spec (db : Store) :
    (App.get_users db).status = 200 ∧
    (App.get_users db).body = JBody.arr (db.map userObj) ∧
    (∀ o ∈ db.map userObj, o.map Prod.fst = ["id", "name", "email"]) ∧
    freshStore.length = 5 ∧
    List.Perm (bodyEmails (App.get_users freshStore).body)
      [JVal.str "alice@example.com", JVal.str "bob@example.com",
       JVal.str "charlie@example.com", JVal.str "diana@example.com",
       JVal.str "eve@example.com"] := by
  refine ⟨rfl, rfl, ?_, by decide, by decide⟩
  intro o ho
  rcases List.mem_map.mp ho with ⟨u, -, rfl⟩
  rfl

theorem get_users_spec_witness :
    (userObj ⟨1, "Alice Johnson", "alice@example.com"⟩).map Prod.fst =
      ["id", "name", "email"] :=
  (get_users_spec seededUsers).2.2.1 _ (by decide)

/-- C8: Store-state noninterference of the health endpoint.  For every
pair of store states the `/health` handler yields the identical response
`{"status": "healthy"}`: it performs no store access. -/
theorem health_noninterference (s1 s2 : Store) :
    App.handle s1 Request.health = App.handle s2 Request.health ∧
    App.handle s1 Request.health =
      ⟨200, JBody.obj [("status", JVal.str "healthy")]⟩ :=
  ⟨rfl, rfl⟩

/-- C9: Variant equivalence.  For every store state and request, the four
read handlers of main.py and those of application.py produce identical
responses. -/
theorem variants_equivalent (db : Store) (req : Request) :
    Main.handle db req = App.handle db req := by
  cases req <;> rfl

/-- C10: `get_user` accepts every integer `user_id`, zero and negatives
included: it always produces a 200 response, and any id matching no record
yields the `{"error": "User not found"}` body instead of a rejection. -/
theorem get_user_accepts_all_ints (db : Store) (uid : Int) :
    (App.get_user db uid).status = 200 ∧
    ((∀ u ∈ db, u.id ≠ uid) →
      App.get_user db uid = ⟨200, JBody.obj [("error", JVal.str "User not found")]⟩) := by
  constructor
  · unfold App.get_user
    cases db.find? (fun u => u.id == uid) <;> rfl
  · intro hall
    unfold App.get_user
    rw [List.find?_eq_none.mpr (fun x hx => by simp [hall x hx])]

theorem get_user_accepts_all_ints_witness :
    App.get_user seededUsers 0 =
      ⟨200, JBody.obj [("error", JVal.str "User not found")]⟩ ∧
    App.get_user seededUsers (-5) =
      ⟨200, JBody.obj [("error", JVal.str "User not found")]⟩ := by
  constructor
  · exact (get_user_accepts_all_ints seededUsers 0).2 (by decide)
  · exact (get_user_accepts_all_ints seededUsers (-5)).2 (by decide)
